import Mathlib

/-!
Shallow embedding of `src/kitchen_sink_server_python/main.py`, the
Kitchen Sink Lite MCP server.  The file defines the data model
(`WidgetPayload`, `CallToolResult`, `ToolMeta`), the asset loader
(`load_widget_html`, with the filesystem made an explicit argument and
the `lru_cache` memoisation made explicit state), and the two tool
handlers (`kitchen_sink_show`, `kitchen_sink_refresh`), followed by
theorems settling the specification's claims about them.
-/

namespace KitchenSink

/-- The constant `TEMPLATE_URI` from main.py. -/
def TEMPLATE_URI : String := "ui://widget/kitchen-sink-lite.html"

/-- The constant `MIME_TYPE` from main.py. -/
def MIME_TYPE : String := "text/html+skybridge"

/-- The pydantic `WidgetPayload` model: `message` is required (`str`),
`accentColor : str | None` defaults to `"#2d6cdf"`, `details : str | None`
defaults to `None`, `fromTool : str` defaults to `"kitchen-sink-show"`.
Serialised with `model_dump(mode="json")`; an `Option.none` field
serialises as JSON `null`. -/
structure WidgetPayload where
  message : String
  accentColor : Option String
  details : Option String
  fromTool : String
deriving Repr, DecidableEq

/-- Model of `types.TextContent`: a text content block of a tool result. -/
structure TextContent where
  type : String
  text : String
deriving Repr, DecidableEq

/-- The `tool_meta` dictionary shape (the `_meta` of a tool result).
Python dict keys are flattened to record fields. -/
structure ToolMeta where
  openai_outputTemplate : String
  openai_toolInvocation_invoking : String
  openai_toolInvocation_invoked : String
  openai_widgetAccessible : Bool
  openai_resultCanProduceWidget : Bool
  invocation : String
deriving Repr, DecidableEq

/-- The function `tool_meta(invocation)` from main.py. -/
def tool_meta (invocation : String) : ToolMeta :=
  { openai_outputTemplate := TEMPLATE_URI
    openai_toolInvocation_invoking := "Preparing the kitchen sink widget"
    openai_toolInvocation_invoked := "Widget rendered"
    openai_widgetAccessible := true
    openai_resultCanProduceWidget := true
    invocation := invocation }

/-- Model of `types.CallToolResult` as constructed by the two handlers: a list of
content blocks, the structured content (the serialised payload), the
`_meta` dictionary and the `isError` flag. -/
structure CallToolResult where
  content : List TextContent
  structuredContent : WidgetPayload
  meta : ToolMeta
  isError : Bool
deriving Repr, DecidableEq

/-- Handler of the `kitchen-sink-show` tool.  Parameters mirror the
Python signature: `message : str` required, `accent_color : str` with
FastMCP default `"#2d6cdf"` (alias `accentColor`), `details : str | None`
with default `None`.  The framework's parameter binding substitutes the
defaults when the optional parameters are omitted; see
`kitchen_sink_show_defaults` for that entry point. -/
def kitchen_sink_show (message : String) (accent_color : String)
    (details : Option String) : CallToolResult :=
  let payload : WidgetPayload :=
    { message := message
      accentColor := some accent_color
      details := details
      fromTool := "kitchen-sink-show" }
  { content := [{ type := "text"
                  text := "Widget ready with message: " ++ payload.message }]
    structuredContent := payload
    meta := tool_meta "kitchen-sink-show"
    isError := false }

/-- Invocation of `kitchen-sink-show` with only `message` supplied: the
parameter binding fills in the declared defaults `accent_color="#2d6cdf"`
and `details=None`. -/
def kitchen_sink_show_defaults (message : String) : CallToolResult :=
  kitchen_sink_show message "#2d6cdf" none

/-- Handler of the `kitchen-sink-refresh` tool: only `message : str`. -/
def kitchen_sink_refresh (message : String) : CallToolResult :=
  let payload : WidgetPayload :=
    { message := message
      accentColor := some "#2d6cdf"
      details := some "This response came from the widget via window.openai.callTool."
      fromTool := "kitchen-sink-refresh" }
  { content := [{ type := "text", text := payload.message }]
    structuredContent := payload
    meta := tool_meta "kitchen-sink-refresh"
    isError := false }

/-- The observable state of `ASSETS_DIR` on disk, as `load_widget_html`
probes it: whether `ASSETS_DIR / "kitchen-sink-lite.html"` exists (and
its contents), and the files matching the glob
`kitchen-sink-lite-*.html` as (filename, contents) pairs. -/
structure AssetsDir where
  direct : Option String
  globMatches : List (String × String)

/-- Filename order used by Python `sorted` on the glob results:
lexicographic order of the names. -/
def nameLe (a b : String × String) : Prop := a.1 ≤ b.1

instance : DecidableRel nameLe :=
  fun a b => inferInstanceAs (Decidable (a.1 ≤ b.1))

instance : IsTotal (String × String) nameLe := ⟨fun a b => le_total a.1 b.1⟩

instance : IsTrans (String × String) nameLe :=
  ⟨fun _ _ _ h1 h2 => le_trans h1 h2⟩

/-- The `FileNotFoundError` message raised by `load_widget_html` when no
asset is found, as a function of the `ASSETS_DIR` path string. -/
def assetMissingError (assetsDirPath : String) : String :=
  "Widget HTML for kitchen-sink-lite not found in " ++ assetsDirPath ++
    ". Run `pnpm run build` from the repo root to generate assets."

/-- The function `load_widget_html()` from main.py (the body, without the `lru_cache`
memoisation; see `load_widget_html_cached`).  The filesystem state and
the `ASSETS_DIR` path are explicit arguments.  A raised
`FileNotFoundError` is an `Except.error`. -/
def load_widget_html (assetsDirPath : String) (dir : AssetsDir) :
    Except String String :=
  match dir.direct with
  | some text => Except.ok text
  | none =>
    let candidates := List.insertionSort nameLe dir.globMatches
    match candidates.getLast? with
    | some c => Except.ok c.2
    | none => Except.error (assetMissingError assetsDirPath)

/-- The `@lru_cache(maxsize=None)` wrapper around `load_widget_html`:
the cache holds the memoised result, filled on the first successful
call; `lru_cache` does not memoise a raised exception.  Returns the
call's result together with the new cache state. -/
def load_widget_html_cached (assetsDirPath : String) (dir : AssetsDir)
    (cache : Option String) : Except String String × Option String :=
  match cache with
  | some v => (Except.ok v, some v)
  | none =>
    match load_widget_html assetsDirPath dir with
    | Except.ok v => (Except.ok v, some v)
    | Except.error e => (Except.error e, none)

/-- The `kitchen_sink_template` resource handler: a fetch of
`TEMPLATE_URI` returns `load_widget_html()`, going through the cache. -/
def kitchen_sink_template (assetsDirPath : String) (dir : AssetsDir)
    (cache : Option String) : Except String String × Option String :=
  load_widget_html_cached assetsDirPath dir cache

/-- An element produced by `getLast?` is a member of the list. -/
theorem mem_of_getLast_eq_some {α : Type} :
    ∀ (l : List α) (a : α), l.getLast? = some a → a ∈ l
  | [], _, h => by simp at h
  | [x], a, h => by
    simp [List.getLast?] at h
    simp [h]
  | x :: y :: r, a, h => by
    rw [List.getLast?_cons_cons] at h
    exact List.mem_cons_of_mem _ (mem_of_getLast_eq_some (y :: r) a h)

/-- In a list sorted by filename, the `getLast?` element has the
largest filename. -/
theorem getLast_name_max :
    ∀ (l : List (String × String)), List.Sorted nameLe l →
      ∀ p, l.getLast? = some p → ∀ q ∈ l, q.1 ≤ p.1
  | [], _, _, h, _, _ => by simp at h
  | [x], _, p, h, q, hq => by
    simp [List.getLast?] at h
    simp at hq
    subst h; subst hq
    exact le_refl _
  | x :: y :: r, hs, p, h, q, hq => by
    rw [List.getLast?_cons_cons] at h
    rw [List.sorted_cons] at hs
    rcases List.mem_cons.mp hq with hqx | hqtail
    · subst hqx
      exact hs.1 p (mem_of_getLast_eq_some (y :: r) p h)
    · exact getLast_name_max (y :: r) hs.2 p h q hqtail

/-- C1: for every `message` (and any values of the optional parameters),
the Show tool's structured content has `fromTool = "kitchen-sink-show"`
and `message` equal to the input verbatim. -/
theorem show_structured_content_echoes (message accent_color : String)
    (details : Option String) :
    (kitchen_sink_show message accent_color details).structuredContent.fromTool
        = "kitchen-sink-show" ∧
    (kitchen_sink_show message accent_color details).structuredContent.message
        = message :=
  ⟨rfl, rfl⟩

/-- C2: for every `message`, the Refresh tool returns structured content
with `accentColor = "#2d6cdf"`, the fixed `details` string, and
`fromTool = "kitchen-sink-refresh"`; in particular
`message = "ping"` yields exactly the documented payload. -/
theorem refresh_fixed_fields (message : String) :
    (kitchen_sink_refresh message).structuredContent.accentColor
        = some "#2d6cdf" ∧
    (kitchen_sink_refresh message).structuredContent.details
        = some "This response came from the widget via window.openai.callTool." ∧
    (kitchen_sink_refresh message).structuredContent.fromTool
        = "kitchen-sink-refresh" ∧
    (kitchen_sink_refresh "ping").structuredContent =
      { message := "ping"
        accentColor := some "#2d6cdf"
        details := some "This response came from the widget via window.openai.callTool."
        fromTool := "kitchen-sink-refresh" } :=
  ⟨rfl, rfl, rfl, rfl⟩

/-- C3: Show invoked with only `message` defaults `accentColor` to
`"#2d6cdf"` and `details` to absent (null); in particular
`message = "Hello"` yields exactly the documented payload and the text
summary `"Widget ready with message: Hello"`. -/
theorem show_defaults_spec (message : String) :
    (kitchen_sink_show_defaults message).structuredContent.accentColor
        = some "#2d6cdf" ∧
    (kitchen_sink_show_defaults message).structuredContent.details = none ∧
    (kitchen_sink_show_defaults "Hello").structuredContent =
      { message := "Hello"
        accentColor := some "#2d6cdf"
        details := none
        fromTool := "kitchen-sink-show" } ∧
    (kitchen_sink_show_defaults "Hello").content =
      [{ type := "text", text := "Widget ready with message: Hello" }] :=
  ⟨rfl, rfl, rfl, rfl⟩

/-- C7: in every payload returned by either handler, `message` is the
(required, non-null) input string and `fromTool` is fixed by the handler
("kitchen-sink-show" resp. "kitchen-sink-refresh") for all possible
caller inputs — the handlers take no `fromTool` parameter, so no choice
of inputs can override it. -/
theorem payload_invariants (m a : String) (d : Option String) (m2 : String) :
    (kitchen_sink_show m a d).structuredContent.message = m ∧
    (kitchen_sink_show m a d).structuredContent.fromTool = "kitchen-sink-show" ∧
    (kitchen_sink_refresh m2).structuredContent.message = m2 ∧
    (kitchen_sink_refresh m2).structuredContent.fromTool = "kitchen-sink-refresh" :=
  ⟨rfl, rfl, rfl, rfl⟩

/-- C8: both handlers are total functions of their well-typed inputs and
always return a successful result (`isError = false`). -/
theorem handlers_never_fail (m a : String) (d : Option String) (m2 : String) :
    (kitchen_sink_show m a d).isError = false ∧
    (kitchen_sink_refresh m2).isError = false :=
  ⟨rfl, rfl⟩

/-- C9: the metadata returned by each handler carries the render template
identifier `"ui://widget/kitchen-sink-lite.html"`, the two status strings
for the preparing and done states, and the widget capability flags set to
true. -/
theorem tool_meta_spec (m a : String) (d : Option String) (m2 : String) :
    ((kitchen_sink_show m a d).meta.openai_outputTemplate
        = "ui://widget/kitchen-sink-lite.html" ∧
      (kitchen_sink_show m a d).meta.openai_toolInvocation_invoking
        = "Preparing the kitchen sink widget" ∧
      (kitchen_sink_show m a d).meta.openai_toolInvocation_invoked
        = "Widget rendered" ∧
      (kitchen_sink_show m a d).meta.openai_widgetAccessible = true ∧
      (kitchen_sink_show m a d).meta.openai_resultCanProduceWidget = true) ∧
    ((kitchen_sink_refresh m2).meta.openai_outputTemplate
        = "ui://widget/kitchen-sink-lite.html" ∧
      (kitchen_sink_refresh m2).meta.openai_toolInvocation_invoking
        = "Preparing the kitchen sink widget" ∧
      (kitchen_sink_refresh m2).meta.openai_toolInvocation_invoked
        = "Widget rendered" ∧
      (kitchen_sink_refresh m2).meta.openai_widgetAccessible = true ∧
      (kitchen_sink_refresh m2).meta.openai_resultCanProduceWidget = true) :=
  ⟨⟨rfl, rfl, rfl, rfl, rfl⟩, ⟨rfl, rfl, rfl, rfl, rfl⟩⟩

/-- C10: the Refresh tool's text content is exactly the input message,
while the Show tool's text content is `"Widget ready with message: "`
followed by the message; the two formats differ for every message. -/
theorem text_summaries_differ (m a : String) (d : Option String) :
    (kitchen_sink_refresh m).content = [{ type := "text", text := m }] ∧
    (kitchen_sink_show m a d).content =
      [{ type := "text", text := "Widget ready with message: " ++ m }] ∧
    "Widget ready with message: " ++ m ≠ m := by
  refine ⟨rfl, rfl, fun h => ?_⟩
  have h2 := congrArg String.length h
  rw [String.length_append] at h2
  have hl : ("Widget ready with message: " : String).length = 27 := rfl
  rw [hl] at h2
  omega

/-- C4: `load_widget_html` returns the direct file's contents when
`ASSETS_DIR/kitchen-sink-lite.html` exists; otherwise, when the glob
`kitchen-sink-lite-*.html` has matches, it returns the contents of a
match whose filename is lexicographically last (greatest). -/
theorem load_widget_html_algorithm (p : String) (dir : AssetsDir) :
    (∀ c, dir.direct = some c → load_widget_html p dir = Except.ok c) ∧
    (dir.direct = none → dir.globMatches ≠ [] →
      ∃ m ∈ dir.globMatches, load_widget_html p dir = Except.ok m.2 ∧
        ∀ q ∈ dir.globMatches, q.1 ≤ m.1) := by
  constructor
  · intro c hc
    simp [load_widget_html, hc]
  · intro hdir hne
    have hperm := List.perm_insertionSort nameLe dir.globMatches
    have hsne : List.insertionSort nameLe dir.globMatches ≠ [] := by
      intro hnil
      apply hne
      have h0 := hperm.symm
      rw [hnil] at h0
      exact List.Perm.eq_nil h0
    have hlast := List.getLast?_eq_getLast _ hsne
    set s := List.insertionSort nameLe dir.globMatches with hs
    set c := s.getLast hsne with hc
    have hmem : c ∈ dir.globMatches :=
      (List.Perm.mem_iff hperm).mp (mem_of_getLast_eq_some s c hlast)
    refine ⟨c, hmem, ?_, ?_⟩
    · simp [load_widget_html, hdir, ← hs, hlast]
    · intro q hq
      exact getLast_name_max s (List.sorted_insertionSort nameLe dir.globMatches)
        c hlast q ((List.Perm.mem_iff hperm).mpr hq)

/-- Witness for C4 at a concrete state: direct file absent, two glob
matches; the later-named build artifact is chosen. -/
theorem load_widget_html_algorithm_witness :
    ∃ m ∈ ([("kitchen-sink-lite-2024.html", "NEW"),
            ("kitchen-sink-lite-2023.html", "OLD")] : List (String × String)),
      load_widget_html "/repo/assets"
          ⟨none, [("kitchen-sink-lite-2024.html", "NEW"),
                  ("kitchen-sink-lite-2023.html", "OLD")]⟩ = Except.ok m.2 ∧
      ∀ q ∈ ([("kitchen-sink-lite-2024.html", "NEW"),
              ("kitchen-sink-lite-2023.html", "OLD")] : List (String × String)),
        q.1 ≤ m.1 :=
  (load_widget_html_algorithm "/repo/assets"
      ⟨none, [("kitchen-sink-lite-2024.html", "NEW"),
              ("kitchen-sink-lite-2023.html", "OLD")]⟩).2
    rfl (List.cons_ne_nil _ _)

/-- C5: when neither the direct file nor any glob match exists,
`load_widget_html` returns (only) the asset-missing error, whose message
contains the expected directory path and the build-step hint
"pnpm run build"; no other content is returned. -/
theorem load_widget_html_missing (p : String) (dir : AssetsDir)
    (h1 : dir.direct = none) (h2 : dir.globMatches = []) :
    load_widget_html p dir = Except.error (assetMissingError p) ∧
    (∃ pre post, assetMissingError p = pre ++ p ++ post) ∧
    (∃ pre post, assetMissingError p = pre ++ "pnpm run build" ++ post) := by
  refine ⟨?_, ?_, ?_⟩
  · simp [load_widget_html, h1, h2, List.insertionSort]
  · exact ⟨"Widget HTML for kitchen-sink-lite not found in ",
      ". Run `pnpm run build` from the repo root to generate assets.", rfl⟩
  · refine ⟨"Widget HTML for kitchen-sink-lite not found in " ++ p ++ ". Run `",
      "` from the repo root to generate assets.", ?_⟩
    simp [assetMissingError, String.append_assoc]

/-- Witness for C5 at a concrete empty assets directory. -/
theorem load_widget_html_missing_witness :
    load_widget_html "/repo/assets" ⟨none, []⟩
        = Except.error (assetMissingError "/repo/assets") ∧
    (∃ pre post, assetMissingError "/repo/assets"
        = pre ++ "/repo/assets" ++ post) ∧
    (∃ pre post, assetMissingError "/repo/assets"
        = pre ++ "pnpm run build" ++ post) :=
  load_widget_html_missing "/repo/assets" ⟨none, []⟩ rfl rfl

/-- C6: after a first successful fetch of the template resource the
loaded HTML is cached; a second fetch returns the byte-identical value,
and does so from the cache alone — whatever the filesystem now holds. -/
theorem template_fetch_cached (p : String) (dir : AssetsDir) (v : String)
    (h : (kitchen_sink_template p dir none).1 = Except.ok v) :
    (kitchen_sink_template p dir none).2 = some v ∧
    (∀ p2 dir2, kitchen_sink_template p2 dir2 (some v) = (Except.ok v, some v)) ∧
    (kitchen_sink_template p dir ((kitchen_sink_template p dir none).2)).1
        = (kitchen_sink_template p dir none).1 := by
  simp only [kitchen_sink_template, load_widget_html_cached] at h ⊢
  cases hr : load_widget_html p dir with
  | ok w =>
    rw [hr] at h
    simp at h
    subst h
    simp [hr]
  | error e =>
    rw [hr] at h
    simp at h

/-- Witness for C6 at a concrete assets directory holding the direct
file. -/
theorem template_fetch_cached_witness :
    (kitchen_sink_template "/repo/assets" ⟨some "<html></html>", []⟩ none).2
        = some "<html></html>" ∧
    (∀ p2 dir2, kitchen_sink_template p2 dir2 (some "<html></html>")
        = (Except.ok "<html></html>", some "<html></html>")) ∧
    (kitchen_sink_template "/repo/assets" ⟨some "<html></html>", []⟩
        ((kitchen_sink_template "/repo/assets" ⟨some "<html></html>", []⟩ none).2)).1
      = (kitchen_sink_template "/repo/assets" ⟨some "<html></html>", []⟩ none).1 :=
  template_fetch_cached "/repo/assets" ⟨some "<html></html>", []⟩ "<html></html>" rfl

/-- Witness for C10 at a concrete message: Refresh's text is the bare
message, Show's text carries the prefix, and the two differ. -/
theorem text_summaries_differ_witness :
    (kitchen_sink_refresh "hi").content = [{ type := "text", text := "hi" }] ∧
    (kitchen_sink_show "hi" "#fff" none).content =
      [{ type := "text", text := "Widget ready with message: " ++ "hi" }] ∧
    "Widget ready with message: " ++ "hi" ≠ "hi" :=
  text_summaries_differ "hi" "#fff" none

end KitchenSink
